import Mathlib

/-!
Verification of the fixed-size block allocator in
`src/src/allocator/fixAlloc.{h,cpp}` (class `FixedAllocator`).

The implementation file `fixAlloc.cpp` defines the bitmap variant of the
class: a contiguous memory pool, a `std::vector<bool>` bitmap
(`false` = free), a cached `free_blocks_count_`, a linear-scan
`find_free_block`, an implemented `allocate`, and a `deallocate` that is an
explicit TODO stub (it prints a message and returns `false`, touching no
state).

Shallow embedding conventions:
- machine addresses and `size_t` values are `Nat`; `size_t` wrap-around is
  made explicit with `% WORD` (`WORD = 2^64`) exactly where the source
  arithmetic can wrap (the `--free_blocks_count_` decrement, the
  `++free_blocks_count_` increment, the `num_blocks_ - free_blocks_count_`
  subtraction, and the `(block_size + alignment_ - 1)` sum);
- `nullptr` is address `0`; `posix_memalign` success is modelled by taking
  the returned pool base address as a parameter of construction;
- a C++ `throw` in the constructor is modelled by `Option.none`;
- pointer arithmetic inside a live pool object does not wrap, so block
  addresses use plain `Nat` addition.
-/

namespace MemAlloc

/-- Word size of `size_t` on the 64-bit target: values wrap modulo `2^64`. -/
def WORD : Nat := 2 ^ 64

/-- State of a (successfully constructed) `FixedAllocator`, mirroring the
member variables used by `fixAlloc.cpp`: `memory_pool_` (base address of the
pool returned by `posix_memalign`), `block_size_` (after alignment
rounding), `num_blocks_`, `alignment_` (fixed to `sizeof(void*) = 8` by the
constructor), `block_bitmap_` (`false` = free) and `free_blocks_count_`. -/
structure FixedAllocator where
  memory_pool : Nat
  block_size : Nat
  num_blocks : Nat
  alignment : Nat
  block_bitmap : List Bool
  free_blocks_count : Nat
deriving Repr, DecidableEq

/-- Line 20 of `fixAlloc.cpp`:
`block_size_ = (block_size + alignment_ - 1) & ~(alignment_ - 1)` with
`alignment_ = sizeof(void*) = 8`. On 64-bit `size_t`, `~7` is `2^64 - 8`
and the sum wraps modulo `2^64`. -/
def align_block_size (block_size : Nat) : Nat :=
  ((block_size + 8 - 1) % WORD) &&& (WORD - 8)

/-- Lines 23-25 of `fixAlloc.cpp`: `total_size = block_size_ * num_blocks_`
is the byte count requested from `posix_memalign`; the `size_t` product
wraps modulo `2^64`. -/
def pool_request_bytes (block_size num_blocks : Nat) : Nat :=
  (align_block_size block_size * num_blocks) % WORD

/-- Lines 8-39 of `fixAlloc.cpp`, the constructor
`FixedAllocator(size_t block_size, size_t num_blocks)`: rejects
`block_size == 0 || num_blocks == 0` by throwing (`none`), otherwise aligns
the block size, obtains the pool (base address `base`, abstracted), resizes
the bitmap to `num_blocks` entries all `false` (free) and sets
`free_blocks_count_ = num_blocks`. -/
def mkFixedAllocator (base block_size num_blocks : Nat) :
    Option FixedAllocator :=
  if block_size = 0 || num_blocks = 0 then none
  else
    some { memory_pool := base
           block_size := align_block_size block_size
           num_blocks := num_blocks
           alignment := 8
           block_bitmap := List.replicate num_blocks false
           free_blocks_count := num_blocks }

/-- The loop of `find_free_block` (lines 120-129): first index holding
`false` (free), or the length of the scanned list when every entry is
`true`. -/
def find_scan : List Bool → Nat
  | [] => 0
  | b :: rest => if b = false then 0 else find_scan rest + 1

/-- Number of loop iterations (bitmap reads) the `find_free_block` scan
performs: one per entry up to and including the first free one, or one per
entry of the whole bitmap when no entry is free. -/
def scan_steps : List Bool → Nat
  | [] => 0
  | b :: rest => if b = false then 1 else scan_steps rest + 1

/-- Lines 120-129 of `fixAlloc.cpp`: linear search over `block_bitmap_`
(whose length is `num_blocks_`) for the first free block; returns
`num_blocks_` when none is free. -/
def find_free_block (a : FixedAllocator) : Nat :=
  find_scan a.block_bitmap

/-- Cost of one `find_free_block` call, in bitmap reads. -/
def find_free_block_steps (a : FixedAllocator) : Nat :=
  scan_steps a.block_bitmap

/-- Lines 116-118 of `fixAlloc.cpp`:
`block_index_to_ptr(index) = memory_pool_ + index * block_size_`. -/
def block_index_to_ptr (a : FixedAllocator) (index : Nat) : Nat :=
  a.memory_pool + index * a.block_size

/-- Lines 111-114 of `fixAlloc.cpp`:
`ptr_to_block_index(ptr) = (ptr - memory_pool_) / block_size_`. -/
def ptr_to_block_index (a : FixedAllocator) (ptr : Nat) : Nat :=
  (ptr - a.memory_pool) / a.block_size

/-- Lines 131-135 of `fixAlloc.cpp`: `block_bitmap_[index] = true;
--free_blocks_count_` (the `size_t` decrement wraps modulo `2^64`). -/
def mark_block_used (a : FixedAllocator) (index : Nat) : FixedAllocator :=
  { a with block_bitmap := a.block_bitmap.set index true
           free_blocks_count := (a.free_blocks_count + WORD - 1) % WORD }

/-- Lines 137-141 of `fixAlloc.cpp`: `block_bitmap_[index] = false;
++free_blocks_count_` (the `size_t` increment wraps modulo `2^64`). -/
def mark_block_free (a : FixedAllocator) (index : Nat) : FixedAllocator :=
  { a with block_bitmap := a.block_bitmap.set index false
           free_blocks_count := (a.free_blocks_count + 1) % WORD }

/-- Lines 143-145 of `fixAlloc.cpp`: `return !block_bitmap_[index]`
(an out-of-range index is undefined behaviour in the source; the model
reads the default `false`, i.e. reports "free"). -/
def is_block_free (a : FixedAllocator) (index : Nat) : Bool :=
  !(a.block_bitmap.getD index false)

/-- Lines 50-65 of `fixAlloc.cpp`, `allocate()`: finds a free block; if
`free_index >= num_blocks_` returns `nullptr` (`none`), otherwise marks the
block used and returns its address. -/
def allocate (a : FixedAllocator) : Option Nat × FixedAllocator :=
  let free_index := find_free_block a
  if a.num_blocks ≤ free_index then
    (none, a)
  else
    let a' := mark_block_used a free_index
    (some (block_index_to_ptr a' free_index), a')

/-- Lines 67-76 of `fixAlloc.cpp`, `deallocate(void* ptr)`: an explicit
TODO stub — it prints a diagnostic message and returns `false`; no member
variable is modified on any input. -/
def deallocate (a : FixedAllocator) (ptr : Nat) : Bool × FixedAllocator :=
  (false, a)

/-- Lines 78-92 of `fixAlloc.cpp`, `is_valid_pointer(void* ptr)`: false for
`nullptr` or a null pool; false when the address falls outside
`[memory_pool_, memory_pool_ + block_size_ * num_blocks_)` — the product
`block_size_ * num_blocks_` on line 85 is computed in `size_t` and wraps
modulo `2^64`; otherwise true exactly when the offset from the pool base
is a multiple of `block_size_`. -/
def is_valid_pointer (a : FixedAllocator) (ptr : Nat) : Bool :=
  if ptr = 0 || a.memory_pool = 0 then false
  else if ptr < a.memory_pool ||
          a.memory_pool + (a.block_size * a.num_blocks) % WORD ≤ ptr then
    false
  else (ptr - a.memory_pool) % a.block_size == 0

/-- Lines 94-96 of `fixAlloc.cpp`. -/
def get_free_blocks (a : FixedAllocator) : Nat :=
  a.free_blocks_count

/-- Lines 98-100 of `fixAlloc.cpp`:
`num_blocks_ - free_blocks_count_` in `size_t` arithmetic. -/
def get_used_blocks (a : FixedAllocator) : Nat :=
  (a.num_blocks + WORD - a.free_blocks_count) % WORD

/-- `get_total_blocks` from `fixAlloc.h` line 43. -/
def get_total_blocks (a : FixedAllocator) : Nat :=
  a.num_blocks

/-- `get_block_size` from `fixAlloc.h` line 42. -/
def get_block_size (a : FixedAllocator) : Nat :=
  a.block_size

/-- Lines 102-104 of `fixAlloc.cpp`. -/
def is_full (a : FixedAllocator) : Bool :=
  a.free_blocks_count == 0

/-- Lines 106-108 of `fixAlloc.cpp`. -/
def is_empty (a : FixedAllocator) : Bool :=
  a.free_blocks_count == a.num_blocks

/-- `round_up(x, a)` as the spec uses it: the least multiple of `a` that is
`≥ x` (for `a ≠ 0`), stated as exact mathematical arithmetic. -/
def round_up (x a : Nat) : Nat :=
  ((x + a - 1) / a) * a

/-- Number of free blocks recorded in the bitmap (`false` entries). -/
def countFree (l : List Bool) : Nat :=
  l.countP (fun b => !b)

/-- Well-formedness tying the cached counter to the bitmap: the bitmap has
one entry per block, `free_blocks_count_` counts its free entries, and the
block count fits in `size_t`. -/
def WF (a : FixedAllocator) : Prop :=
  a.block_bitmap.length = a.num_blocks ∧
  a.free_blocks_count = countFree a.block_bitmap ∧
  a.num_blocks < WORD

/-- States reachable through the public interface: a successful
construction (with `size_t` arguments, hence `< 2^64`) followed by any
sequence of `allocate` / `deallocate` calls; the query methods are `const`
and do not change state. -/
inductive Reachable : FixedAllocator → Prop where
  | init (base block_size num_blocks : Nat) (a : FixedAllocator)
      (hbs : block_size < WORD) (hnb : num_blocks < WORD)
      (h : mkFixedAllocator base block_size num_blocks = some a) :
      Reachable a
  | alloc (a : FixedAllocator) (h : Reachable a) :
      Reachable (allocate a).2
  | dealloc (a : FixedAllocator) (ptr : Nat) (h : Reachable a) :
      Reachable (deallocate a ptr).2

/-! ### Lemmas about the free-block scan and the bitmap free count -/

theorem find_scan_le (l : List Bool) : find_scan l ≤ l.length := by
  induction l with
  | nil => simp [find_scan]
  | cons b rest ih =>
    simp only [find_scan, List.length_cons]
    split
    · omega
    · omega

theorem find_scan_getD (l : List Bool) (h : find_scan l < l.length) :
    l.getD (find_scan l) true = false := by
  induction l with
  | nil => simp [find_scan] at h
  | cons b rest ih =>
    cases b with
    | false => simp [find_scan]
    | true =>
      have hs : find_scan (true :: rest) = find_scan rest + 1 := by
        simp [find_scan]
      rw [hs] at h ⊢
      simp only [List.length_cons] at h
      simpa [List.getD_cons_succ] using ih (by omega)

theorem countFree_replicate (n : Nat) :
    countFree (List.replicate n false) = n := by
  induction n with
  | zero => rfl
  | succ n ih =>
    simp [countFree, List.replicate_succ, List.countP_cons] at ih ⊢
    omega

theorem countFree_le (l : List Bool) : countFree l ≤ l.length :=
  List.countP_le_length _

theorem countFree_set_true (l : List Bool) (i : Nat) (h : i < l.length)
    (hf : l.getD i true = false) :
    countFree (l.set i true) = countFree l - 1 ∧ 1 ≤ countFree l := by
  induction l generalizing i with
  | nil => simp at h
  | cons b rest ih =>
    cases i with
    | zero =>
      simp only [List.getD_cons_zero] at hf
      subst hf
      simp [countFree, List.countP_cons, List.set]
    | succ i =>
      simp only [List.getD_cons_succ] at hf
      have h2 : i < rest.length := by
        simpa using Nat.lt_of_succ_lt_succ (by simpa using h)
      obtain ⟨ha, hb⟩ := ih i h2 hf
      simp only [List.set, countFree, List.countP_cons] at ha hb ⊢
      constructor
      · cases b with
        | false => simp_all
        | true => simp_all
      · omega

/-! ### Well-formedness is established by construction and preserved -/

theorem wf_mk (base bs nb : Nat) (a : FixedAllocator) (hnb : nb < WORD)
    (h : mkFixedAllocator base bs nb = some a) : WF a := by
  unfold mkFixedAllocator at h
  split at h
  · exact absurd h (by simp)
  · rw [Option.some_inj] at h
    subst h
    exact ⟨by simp, by simp [countFree_replicate], hnb⟩

theorem wf_allocate (a : FixedAllocator) (hwf : WF a) :
    WF (allocate a).2 := by
  obtain ⟨hlen, hcount, hword⟩ := hwf
  by_cases hge : a.num_blocks ≤ find_free_block a
  · simpa [allocate, hge] using ⟨hlen, hcount, hword⟩
  · have hlt : find_free_block a < a.block_bitmap.length := by
      rw [hlen]; omega
    have hfree := find_scan_getD a.block_bitmap hlt
    obtain ⟨hset, hpos⟩ := countFree_set_true _ _ hlt hfree
    have hf1 : 1 ≤ a.free_blocks_count := hcount ▸ hpos
    have hfW : a.free_blocks_count < WORD := by
      have := countFree_le a.block_bitmap
      omega
    refine ⟨?_, ?_, ?_⟩ <;>
      simp only [allocate, hge, if_false, mark_block_used]
    · simpa using hlen
    · show (a.free_blocks_count + WORD - 1) % WORD =
        countFree (a.block_bitmap.set (find_free_block a) true)
      rw [hset, ← hcount]
      have hsplit : a.free_blocks_count + WORD - 1 =
          WORD + (a.free_blocks_count - 1) := by omega
      rw [hsplit, Nat.add_mod_left, Nat.mod_eq_of_lt (by omega)]
    · exact hword

theorem reachable_wf (a : FixedAllocator) (h : Reachable a) : WF a := by
  induction h with
  | init base bs nb a hbs hnb hmk => exact wf_mk base bs nb a hnb hmk
  | alloc a h ih => exact wf_allocate a ih
  | dealloc a p h ih => exact ih

/-! ### Claim theorems -/

/-- C1: for every reachable state of a successfully constructed
`FixedAllocator`, `get_free_blocks() + get_used_blocks() ==
get_total_blocks()`; since `Reachable` is closed under `allocate` and
`deallocate` and the query methods are `const`, every public operation
preserves the equality. -/
theorem c1_free_plus_used_eq_total (a : FixedAllocator)
    (h : Reachable a) :
    get_free_blocks a + get_used_blocks a = get_total_blocks a := by
  obtain ⟨hlen, hcount, hword⟩ := reachable_wf a h
  have hle : a.free_blocks_count ≤ a.num_blocks := by
    have := countFree_le a.block_bitmap
    omega
  unfold get_free_blocks get_used_blocks get_total_blocks
  have hsplit : a.num_blocks + WORD - a.free_blocks_count =
      WORD + (a.num_blocks - a.free_blocks_count) := by omega
  rw [hsplit, Nat.add_mod_left, Nat.mod_eq_of_lt (by omega)]
  omega

/-- Witness for C1: the invariant holds at the freshly constructed
`FixedAllocator(32, 3)` state (pool base 8). -/
theorem c1_witness :
    get_free_blocks ⟨8, 32, 3, 8, [false, false, false], 3⟩ +
      get_used_blocks ⟨8, 32, 3, 8, [false, false, false], 3⟩ =
      get_total_blocks ⟨8, 32, 3, 8, [false, false, false], 3⟩ :=
  c1_free_plus_used_eq_total _
    (Reachable.init 8 32 3 _ (by decide) (by decide) (by decide))

/-- C2 (divergence witness against the code): in `fixAlloc.cpp` the
`deallocate` body is a TODO stub. After `FixedAllocator(32, 3)` at pool
base 8 serves its first `allocate()` (block 0, pointer 8),
`deallocate(8)` on that live pointer returns failure and leaves
`get_free_blocks()` at 2 — it does not return success and does not raise
the free count back to 3 as the claim requires. -/
theorem c2_deallocate_stub_rejects_live_pointer :
    mkFixedAllocator 8 32 3 = some ⟨8, 32, 3, 8, [false, false, false], 3⟩ ∧
    (allocate ⟨8, 32, 3, 8, [false, false, false], 3⟩).1 = some 8 ∧
    deallocate (allocate ⟨8, 32, 3, 8, [false, false, false], 3⟩).2 8 =
      (false, (allocate ⟨8, 32, 3, 8, [false, false, false], 3⟩).2) ∧
    get_free_blocks
      (deallocate (allocate ⟨8, 32, 3, 8, [false, false, false], 3⟩).2 8).2
      = 2 := by
  decide

/-- C3: calling `deallocate` on a pointer whose block is currently `Free`
returns failure and performs no mutation at all — the allocator state
(bitmap, counters, and hence the free/used counts) is exactly as before
the call. In `fixAlloc.cpp` this holds because `deallocate` rejects every
call without touching any member. -/
theorem c3_double_free_is_noop (a : FixedAllocator) (p : Nat)
    (hfree : is_block_free a (ptr_to_block_index a p) = true) :
    (deallocate a p).1 = false ∧ (deallocate a p).2 = a ∧
    get_free_blocks (deallocate a p).2 = get_free_blocks a ∧
    get_used_blocks (deallocate a p).2 = get_used_blocks a :=
  ⟨rfl, rfl, rfl, rfl⟩

/-- Witness for C3: in the freshly constructed `FixedAllocator(32, 3)`
state, block 0 (pointer 8) is free; `deallocate(8)` fails and changes
nothing. -/
theorem c3_witness :
    is_block_free (⟨8, 32, 3, 8, [false, false, false], 3⟩ : FixedAllocator)
      (ptr_to_block_index ⟨8, 32, 3, 8, [false, false, false], 3⟩ 8) =
      true ∧
    ((deallocate ⟨8, 32, 3, 8, [false, false, false], 3⟩ 8).1 = false ∧
      (deallocate ⟨8, 32, 3, 8, [false, false, false], 3⟩ 8).2 =
        ⟨8, 32, 3, 8, [false, false, false], 3⟩ ∧
      get_free_blocks
          (deallocate ⟨8, 32, 3, 8, [false, false, false], 3⟩ 8).2 =
        get_free_blocks ⟨8, 32, 3, 8, [false, false, false], 3⟩ ∧
      get_used_blocks
          (deallocate ⟨8, 32, 3, 8, [false, false, false], 3⟩ 8).2 =
        get_used_blocks ⟨8, 32, 3, 8, [false, false, false], 3⟩) :=
  ⟨by decide, c3_double_free_is_noop _ 8 (by decide)⟩

/-- C4 (divergence witness against the code): `FixedAllocator(32, 1)` at
pool base 8 serves one allocation; the next `allocate()` on the exhausted
pool returns `nullptr` (`none`) and leaves the whole state unchanged (so
the free/used counts are preserved and nothing is thrown). The legacy
class maintains no `Statistics`, so no `allocation_failures` counter is
ever incremented. -/
theorem c4_exhausted_allocate_returns_null_without_mutation :
    mkFixedAllocator 8 32 1 = some ⟨8, 32, 1, 8, [false], 1⟩ ∧
    (allocate ⟨8, 32, 1, 8, [false], 1⟩).1 = some 8 ∧
    allocate (allocate ⟨8, 32, 1, 8, [false], 1⟩).2 =
      (none, (allocate ⟨8, 32, 1, 8, [false], 1⟩).2) := by
  decide

theorem scan_steps_replicate_true (n : Nat) :
    scan_steps (List.replicate n true) = n := by
  induction n with
  | zero => rfl
  | succ n ih => simp [List.replicate_succ, scan_steps, ih]

theorem find_scan_replicate_true (n : Nat) :
    find_scan (List.replicate n true) = n := by
  induction n with
  | zero => rfl
  | succ n ih => simp [List.replicate_succ, find_scan, ih]

/-- C9 (divergence witness against the code): on a pool whose blocks are
all allocated (bitmap entirely `true`), one `find_free_block` call — the
lookup `allocate()` performs — reads all `num_blocks` bitmap entries
before reporting exhaustion: the per-call cost is linear in the pool
size, not O(1), and there is no free-list pop. -/
theorem c9_full_pool_linear_scan (a : FixedAllocator)
    (h : a.block_bitmap = List.replicate a.num_blocks true) :
    find_free_block_steps a = a.num_blocks ∧
    find_free_block a = a.num_blocks := by
  unfold find_free_block_steps find_free_block
  rw [h]
  exact ⟨scan_steps_replicate_true _, find_scan_replicate_true _⟩

/-- Witness for C9: a fully allocated 3-block pool pays 3 bitmap reads in
a single `find_free_block` call. -/
theorem c9_witness :
    find_free_block_steps ⟨8, 32, 3, 8, [true, true, true], 0⟩ = 3 ∧
    find_free_block ⟨8, 32, 3, 8, [true, true, true], 0⟩ = 3 :=
  c9_full_pool_linear_scan ⟨8, 32, 3, 8, [true, true, true], 0⟩ (by decide)

/-- Counterexample to C5 as stated: `FixedAllocator(2^63 + 8, 2)`
constructs successfully (the aligned block size is `2^63 + 8`, and the
`size_t` pool-size product `(2^63 + 8) * 2` wraps to 16, so only 16 bytes
are requested). On that object the pointer `pool_base + 2^63 + 8` — block
1's address, non-null, block-aligned, and inside the mathematical range
`[pool_base, pool_base + block_size * num_blocks)` — is rejected by
`is_valid_pointer`, because line 85 compares against the wrapped bound
`pool_base + 16`. -/
theorem c5_counterexample :
    mkFixedAllocator 8 (2 ^ 63 + 8) 2 =
      some ⟨8, 2 ^ 63 + 8, 2, 8, [false, false], 2⟩ ∧
    is_valid_pointer ⟨8, 2 ^ 63 + 8, 2, 8, [false, false], 2⟩
      (8 + (2 ^ 63 + 8)) = false ∧
    (8 + (2 ^ 63 + 8) : Nat) ≠ 0 ∧
    (8 : Nat) ≤ 8 + (2 ^ 63 + 8) ∧
    8 + (2 ^ 63 + 8) < 8 + (2 ^ 63 + 8) * 2 ∧
    (8 + (2 ^ 63 + 8) - 8) % (2 ^ 63 + 8) = 0 := by
  decide

/-- C5 (amended): for a successfully constructed allocator (non-null pool
base) whose `size_t` pool-size product does not wrap
(`block_size * num_blocks < 2^64`), `is_valid_pointer(ptr)` returns true
exactly when `ptr` is non-null, pool-resident
(`pool_base ≤ ptr < pool_base + block_size * num_blocks`) and
block-aligned (`(ptr - pool_base) % block_size == 0`); and the answer is
purely structural — it is unchanged by any change to the allocation state
(bitmap and free counter), so it holds for free blocks exactly as for
allocated ones. -/
theorem c5_is_valid_pointer_characterization (a : FixedAllocator)
    (p : Nat) (hpool : a.memory_pool ≠ 0)
    (hsize : a.block_size * a.num_blocks < WORD) :
    (is_valid_pointer a p = true ↔
      (p ≠ 0 ∧ a.memory_pool ≤ p ∧
        p < a.memory_pool + a.block_size * a.num_blocks ∧
        (p - a.memory_pool) % a.block_size = 0)) ∧
    (∀ bitmap fc,
      is_valid_pointer
        { a with block_bitmap := bitmap, free_blocks_count := fc } p =
        is_valid_pointer a p) := by
  refine ⟨?_, fun bitmap fc => rfl⟩
  unfold is_valid_pointer
  rw [Nat.mod_eq_of_lt hsize]
  by_cases h0 : p = 0
  · subst h0; simp
  · by_cases hlo : p < a.memory_pool
    · simp only [h0, hpool, hlo]
      simp
      omega
    · by_cases hhi : a.memory_pool + a.block_size * a.num_blocks ≤ p
      · simp only [h0, hpool, hlo, hhi]
        simp
        omega
      · have hge : a.memory_pool ≤ p := by omega
        have hlt : p < a.memory_pool + a.block_size * a.num_blocks := by
          omega
        simp [h0, hpool, hlo, hhi, hge, hlt]

/-- Witness for C5: for the pool at base 8 with three 32-byte blocks,
pointer 40 (= base + 32) is valid, and the characterization holds
concretely. -/
theorem c5_witness :
    ((is_valid_pointer
        (⟨8, 32, 3, 8, [false, false, false], 3⟩ : FixedAllocator) 40 =
        true ↔
      ((40 : Nat) ≠ 0 ∧ (8 : Nat) ≤ 40 ∧ (40 : Nat) < 8 + 32 * 3 ∧
        (40 - 8) % 32 = 0)) ∧
      (∀ bitmap fc,
        is_valid_pointer
          (⟨8, 32, 3, 8, bitmap, fc⟩ : FixedAllocator) 40 =
          is_valid_pointer
            (⟨8, 32, 3, 8, [false, false, false], 3⟩ : FixedAllocator)
            40)) :=
  c5_is_valid_pointer_characterization
    ⟨8, 32, 3, 8, [false, false, false], 3⟩ 40 (by decide) (by decide)

/-- C6: construction with `block_size == 0` or `num_blocks == 0` fails —
the constructor throws `std::invalid_argument` (modelled as `none`)
before the pool is requested, so no allocator instance is produced and no
memory is retained. The legacy constructor fixes `alignment_` to
`sizeof(void*) = 8`, a power of two, so a non-power-of-two alignment is
not expressible through this interface. -/
theorem c6_zero_config_construction_fails (base bs nb : Nat)
    (h : bs = 0 ∨ nb = 0) :
    mkFixedAllocator base bs nb = none := by
  unfold mkFixedAllocator
  rcases h with h | h <;> simp [h]

/-- Witness for C6: `FixedAllocator(0, 5)` fails to construct. -/
theorem c6_witness : mkFixedAllocator 8 0 5 = none :=
  c6_zero_config_construction_fails 8 0 5 (Or.inl rfl)

/-- Clearing the low three bits of a 64-bit value rounds it down to a
multiple of 8: `m & ~7 = 8 * (m / 8)` for `m < 2^64`. -/
theorem land_high_mask (m : Nat) (hm : m < 2 ^ 64) :
    m &&& (2 ^ 64 - 8) = 8 * (m / 8) := by
  have h8 : (2 : Nat) ^ 64 - 8 = (2 ^ 61 - 1) <<< 3 := by
    norm_num [Nat.shiftLeft_eq]
  have hrhs : 8 * (m / 8) = (m >>> 3) <<< 3 := by
    simp [Nat.shiftRight_eq_div_pow, Nat.shiftLeft_eq]
    ring_nf
  rw [h8, hrhs]
  apply Nat.eq_of_testBit_eq
  intro i
  rw [Nat.testBit_land, Nat.testBit_shiftLeft, Nat.testBit_shiftLeft,
    Nat.testBit_two_pow_sub_one, Nat.testBit_shiftRight]
  by_cases h3 : 3 ≤ i
  · have hi : 3 + (i - 3) = i := by omega
    rw [hi]
    by_cases h64 : i < 64
    · simp [h3, show i - 3 < 61 by omega]
    · have hf : m.testBit i = false :=
        Nat.testBit_eq_false_of_lt
          (lt_of_lt_of_le hm (Nat.pow_le_pow_right (by norm_num) (by omega)))
      simp [hf]
  · simp [h3]

/-- When `block_size + 7` does not wrap around `size_t`, the constructor's
masked computation agrees with the mathematical `round_up` to the fixed
alignment 8. -/
theorem align_block_size_eq_round_up (bs : Nat) (h : bs + 7 < WORD) :
    align_block_size bs = round_up bs 8 := by
  have h7 : bs + 8 - 1 = bs + 7 := by omega
  have hW : WORD = 2 ^ 64 := rfl
  unfold align_block_size round_up
  rw [h7, hW, Nat.mod_eq_of_lt (by omega),
    land_high_mask (bs + 7) (by omega)]
  exact Nat.mul_comm 8 ((bs + 7) / 8)

/-- C7 (amended): on successful construction, and provided the `size_t`
computations do not overflow (`block_size + 7 < 2^64` and
`block_size_aligned * num_blocks < 2^64`), the stored block size is
`round_up(block_size, 8)` (the legacy constructor fixes alignment at
`sizeof(void*) = 8`), `get_block_size()` returns that aligned value, and
the byte count requested from `posix_memalign` is exactly
`block_size_aligned * num_blocks`. -/
theorem c7_block_size_aligned (base bs nb : Nat) (a : FixedAllocator)
    (hbs : bs + 7 < WORD)
    (hprod : align_block_size bs * nb < WORD)
    (h : mkFixedAllocator base bs nb = some a) :
    a.block_size = round_up bs 8 ∧
    get_block_size a = round_up bs 8 ∧
    pool_request_bytes bs nb = round_up bs 8 * nb := by
  have halign := align_block_size_eq_round_up bs hbs
  unfold mkFixedAllocator at h
  split at h
  · exact absurd h (by simp)
  · rw [Option.some_inj] at h
    subst h
    refine ⟨halign, halign, ?_⟩
    unfold pool_request_bytes
    rw [Nat.mod_eq_of_lt hprod, halign]

/-- Counterexample to C7 as stated: with `block_size = 2^64 - 1` (a legal
nonzero `size_t`), the constructor's `(block_size + 7) & ~7` wraps around
`size_t` and stores block size 0, while `round_up(2^64 - 1, 8) = 2^64`;
construction nevertheless succeeds, so the claimed equality fails. -/
theorem c7_counterexample :
    mkFixedAllocator 8 (2 ^ 64 - 1) 3 =
      some ⟨8, 0, 3, 8, [false, false, false], 3⟩ ∧
    align_block_size (2 ^ 64 - 1) = 0 ∧
    round_up (2 ^ 64 - 1) 8 = 2 ^ 64 ∧
    align_block_size (2 ^ 64 - 1) ≠ round_up (2 ^ 64 - 1) 8 := by
  decide

/-- Witness for C7: `FixedAllocator(32, 3)` stores block size
`round_up(32, 8) = 32` and requests `32 * 3` bytes. -/
theorem c7_witness :
    (⟨8, 32, 3, 8, [false, false, false], 3⟩ : FixedAllocator).block_size =
      round_up 32 8 ∧
    get_block_size ⟨8, 32, 3, 8, [false, false, false], 3⟩ =
      round_up 32 8 ∧
    pool_request_bytes 32 3 = round_up 32 8 * 3 :=
  c7_block_size_aligned 8 32 3 ⟨8, 32, 3, 8, [false, false, false], 3⟩
    (by decide) (by decide) (by decide)

/-- Every fact certified by a true `is_valid_pointer` verdict: the pointer
and pool base are non-null, the pointer is pool-resident and its offset is
a multiple of the block size. -/
theorem is_valid_pointer_elim (a : FixedAllocator) (p : Nat)
    (hp : is_valid_pointer a p = true) :
    p ≠ 0 ∧ a.memory_pool ≠ 0 ∧ a.memory_pool ≤ p ∧
    p < a.memory_pool + (a.block_size * a.num_blocks) % WORD ∧
    (p - a.memory_pool) % a.block_size = 0 := by
  unfold is_valid_pointer at hp
  by_cases h0 : p = 0
  · simp [h0] at hp
  · by_cases hb : a.memory_pool = 0
    · simp [h0, hb] at hp
    · by_cases hlo : p < a.memory_pool
      · simp [h0, hb, hlo] at hp
      · by_cases hhi :
            a.memory_pool + (a.block_size * a.num_blocks) % WORD ≤ p
        · simp [h0, hb, hlo, hhi] at hp
        · simp [h0, hb, hlo, hhi] at hp
          exact ⟨h0, hb, by omega, by omega, hp⟩

/-- Constructing `FixedAllocator(32, 3)` at any pool base yields 3 free
blocks of 32 (already 8-aligned) bytes. -/
theorem mk_32_3 (base : Nat) :
    mkFixedAllocator base 32 3 =
      some ⟨base, 32, 3, 8, [false, false, false], 3⟩ := rfl

/-- Unfolding `allocate` on a state with a free block: the found block is
marked used and its address is returned. -/
theorem allocate_found (a : FixedAllocator)
    (h : find_free_block a < a.num_blocks) :
    allocate a =
      (some (a.memory_pool + find_free_block a * a.block_size),
        { a with
            block_bitmap := a.block_bitmap.set (find_free_block a) true
            free_blocks_count := (a.free_blocks_count + WORD - 1) % WORD
          }) := by
  unfold allocate
  rw [if_neg (by omega)]
  rfl

/-- Unfolding `allocate` on a state with no free block: `nullptr` is
returned and the state is untouched. -/
theorem allocate_exhausted (a : FixedAllocator)
    (h : a.num_blocks ≤ find_free_block a) :
    allocate a = (none, a) := by
  unfold allocate
  rw [if_pos h]

/-- C8: for `FixedAllocator(block_size = 32, num_blocks = 3)` at pool base
`base`, the first three `allocate()` calls succeed and return the
pairwise-distinct pointers `base`, `base + 32`, `base + 64`, each
block-aligned (`(ptr - base) % 32 == 0`) and pool-resident
(`base ≤ ptr < base + 96`); the fourth `allocate()` returns `nullptr`
(`none`); afterwards `is_full()` is true and `is_empty()` is false. -/
theorem c8_small_pool_scenario (base : Nat) (a0 : FixedAllocator)
    (h : mkFixedAllocator base 32 3 = some a0) :
    (allocate a0).1 = some base ∧
    (allocate (allocate a0).2).1 = some (base + 32) ∧
    (allocate (allocate (allocate a0).2).2).1 = some (base + 64) ∧
    (allocate (allocate (allocate (allocate a0).2).2).2).1 = none ∧
    (base ≠ base + 32 ∧ base ≠ base + 64 ∧ base + 32 ≠ base + 64) ∧
    ((base - base) % 32 = 0 ∧ (base + 32 - base) % 32 = 0 ∧
      (base + 64 - base) % 32 = 0) ∧
    (base ≤ base ∧ base < base + 96 ∧ base ≤ base + 32 ∧
      base + 32 < base + 96 ∧ base ≤ base + 64 ∧ base + 64 < base + 96) ∧
    is_full (allocate (allocate (allocate (allocate a0).2).2).2).2 =
      true ∧
    is_empty (allocate (allocate (allocate (allocate a0).2).2).2).2 =
      false := by
  have ha : a0 = ⟨base, 32, 3, 8, [false, false, false], 3⟩ := by
    rw [mk_32_3 base, Option.some_inj] at h
    exact h.symm
  subst ha
  have d1 : (3 + WORD - 1) % WORD = 2 := by decide
  have d2 : (2 + WORD - 1) % WORD = 1 := by decide
  have d3 : (1 + WORD - 1) % WORD = 0 := by decide
  have d4 : (2 : Nat) % WORD = 2 := by decide
  have d5 : (1 : Nat) % WORD = 1 := by decide
  have e1 : allocate ⟨base, 32, 3, 8, [false, false, false], 3⟩ =
      (some base, ⟨base, 32, 3, 8, [true, false, false], 2⟩) := by
    rw [allocate_found _ (by simp [find_free_block, find_scan])]
    simp [find_free_block, find_scan, d1, d4]
  have e2 : allocate ⟨base, 32, 3, 8, [true, false, false], 2⟩ =
      (some (base + 32), ⟨base, 32, 3, 8, [true, true, false], 1⟩) := by
    rw [allocate_found _ (by simp [find_free_block, find_scan])]
    simp [find_free_block, find_scan, d2, d5]
  have e3 : allocate ⟨base, 32, 3, 8, [true, true, false], 1⟩ =
      (some (base + 64), ⟨base, 32, 3, 8, [true, true, true], 0⟩) := by
    rw [allocate_found _ (by simp [find_free_block, find_scan])]
    simp [find_free_block, find_scan, d3]
  have e4 : allocate ⟨base, 32, 3, 8, [true, true, true], 0⟩ =
      (none, ⟨base, 32, 3, 8, [true, true, true], 0⟩) :=
    allocate_exhausted _ (by simp [find_free_block, find_scan])
  refine ⟨by simp [e1], by simp [e1, e2], by simp [e1, e2, e3],
    by simp [e1, e2, e3, e4], ⟨by omega, by omega, by omega⟩,
    ⟨by omega, by omega, by omega⟩,
    ⟨Nat.le_refl base, by omega, by omega, by omega, by omega, by omega⟩,
    by simp [e1, e2, e3, e4, is_full],
    by simp [e1, e2, e3, e4, is_empty]⟩

/-- Witness for C8: the scenario at pool base 8 — the three pointers are
8, 40, 72, the fourth call fails, the pool is full and not empty. -/
theorem c8_witness :
    (allocate ⟨8, 32, 3, 8, [false, false, false], 3⟩).1 = some 8 ∧
    (allocate
        (allocate ⟨8, 32, 3, 8, [false, false, false], 3⟩).2).1 =
      some (8 + 32) ∧
    (allocate (allocate
        (allocate ⟨8, 32, 3, 8, [false, false, false], 3⟩).2).2).1 =
      some (8 + 64) ∧
    (allocate (allocate (allocate
        (allocate ⟨8, 32, 3, 8, [false, false, false], 3⟩).2).2).2).1 =
      none ∧
    ((8 : Nat) ≠ 8 + 32 ∧ (8 : Nat) ≠ 8 + 64 ∧
      (8 : Nat) + 32 ≠ 8 + 64) ∧
    (((8 : Nat) - 8) % 32 = 0 ∧ ((8 : Nat) + 32 - 8) % 32 = 0 ∧
      ((8 : Nat) + 64 - 8) % 32 = 0) ∧
    ((8 : Nat) ≤ 8 ∧ (8 : Nat) < 8 + 96 ∧ (8 : Nat) ≤ 8 + 32 ∧
      (8 : Nat) + 32 < 8 + 96 ∧ (8 : Nat) ≤ 8 + 64 ∧
      (8 : Nat) + 64 < 8 + 96) ∧
    is_full (allocate (allocate (allocate
        (allocate ⟨8, 32, 3, 8, [false, false, false], 3⟩).2).2).2).2 =
      true ∧
    is_empty (allocate (allocate (allocate
        (allocate ⟨8, 32, 3, 8, [false, false, false], 3⟩).2).2).2).2 =
      false :=
  c8_small_pool_scenario 8 ⟨8, 32, 3, 8, [false, false, false], 3⟩ rfl

/-- C10: the pointer/index conversions are mutually inverse over the pool:
for every block index `i < num_blocks`,
`ptr_to_block_index(block_index_to_ptr(i)) == i`, and for every
block-aligned pool-resident pointer `p` (one `is_valid_pointer` accepts),
`block_index_to_ptr(ptr_to_block_index(p)) == p`. The block size of a
constructed allocator is positive (at least the alignment 8). -/
theorem c10_index_ptr_roundtrip (a : FixedAllocator) (i p : Nat)
    (hbs : 0 < a.block_size) (hi : i < a.num_blocks)
    (hp : is_valid_pointer a p = true) :
    ptr_to_block_index a (block_index_to_ptr a i) = i ∧
    block_index_to_ptr a (ptr_to_block_index a p) = p := by
  constructor
  · unfold ptr_to_block_index block_index_to_ptr
    rw [Nat.add_sub_cancel_left]
    exact Nat.mul_div_cancel i hbs
  · obtain ⟨h0, hb, hge, hlt, hmod⟩ := is_valid_pointer_elim a p hp
    unfold block_index_to_ptr ptr_to_block_index
    rw [Nat.div_mul_cancel (Nat.dvd_of_mod_eq_zero hmod)]
    omega

/-- Witness for C10: in the 3-block pool at base 8 with 32-byte blocks,
index 2 maps to pointer 72 and back, and the valid pointer 72 maps to
index 2 and back. -/
theorem c10_witness :
    ptr_to_block_index ⟨8, 32, 3, 8, [false, false, false], 3⟩
        (block_index_to_ptr ⟨8, 32, 3, 8, [false, false, false], 3⟩ 2) =
      2 ∧
    block_index_to_ptr ⟨8, 32, 3, 8, [false, false, false], 3⟩
        (ptr_to_block_index ⟨8, 32, 3, 8, [false, false, false], 3⟩ 72) =
      72 :=
  c10_index_ptr_roundtrip ⟨8, 32, 3, 8, [false, false, false], 3⟩ 2 72
    (by decide) (by decide) (by decide)

end MemAlloc
